import Mathlib

/-!
Shallow embedding of the pinpoint-mcp server (TypeScript) in Lean 4.

The program is a Model Context Protocol server exposing a recruiting REST
API.  The embedding covers:

* `src/api/pinpoint.ts` (= `src/unnamed/part_001`): the API adapter —
  query-parameter construction for `getJobs` / `getApplications`, the
  JSON:API body built by `createApplication`, and the `getJobById` /
  `getApplicationById` calls.  HTTP transport (axios) is modelled by an
  explicit `World`: an existing resource yields the stored response body,
  a missing resource makes the GET reject with the fixed axios message
  "Request failed with status code 404" (axios rejects on non-2xx by
  default).  The try/catch blocks of the adapter only log and rethrow, so the
  adapter result is the transport result unchanged.
* `src/utils` (= `src/unnamed/part_000`): `parsePdfFromUrl` and
  `extractTextFromPdf`.  The pdfreader callback stream is modelled as the
  list of callback invocations (an error, the end-of-file null item, or a
  parsed item optionally carrying text); a promise that settles is the
  first `resolve` reached, `none` meaning it never settles.
* `src/main.ts`: the tool handlers, as functions from a `World` and the
  (zod-validated, defaults applied) arguments to the response and the
  list of HTTP requests issued.  A handler without try/catch returns
  `Except.error` when the adapter rejects (the exception propagates); a
  handler with try/catch is total.

JS truthiness on the filter values (strings and numbers) is modelled
exactly: the empty string and 0 are falsy, everything else truthy.
Numbers are modelled as integers (the schemas only pass integers).
-/

/-- JSON values (the subset the program manipulates: no floats).
Objects keep insertion order, as JS objects do for string keys. -/
inductive Json where
  | null
  | bool (b : Bool)
  | num (n : Int)
  | str (s : String)
  | arr (elems : List Json)
  | obj (fields : List (String × Json))

/-- JS falsiness of a JSON value: `null`, `false`, `0` and `""` are falsy. -/
def jsFalsy : Json → Bool
  | Json.null => true
  | Json.bool b => !b
  | Json.num n => n == 0
  | Json.str s => s == ""
  | Json.arr _ => false
  | Json.obj _ => false

/-- Property access `j[k]` on an object, `none` when absent or not an object. -/
def jsField : Json → String → Option Json
  | Json.obj fields, k => fields.lookup k
  | _, _ => none

/-- Optional-chaining access `j?.k1?.k2...`. -/
def jsPath : Option Json → List String → Option Json
  | j, [] => j
  | none, _ :: _ => none
  | some j, k :: ks => jsPath (jsField j k) ks

mutual
/-- JS `String(v)` conversion used by template literals. -/
def jsShow : Json → String
  | Json.null => "null"
  | Json.bool true => "true"
  | Json.bool false => "false"
  | Json.num n => toString n
  | Json.str s => s
  | Json.arr xs => String.intercalate "," (jsShowList xs)
  | Json.obj _ => "[object Object]"

def jsShowList : List Json → List String
  | [] => []
  | x :: xs => jsShow x :: jsShowList xs
end

/-- Template interpolation of a possibly-undefined value:
`undefined` prints as "undefined". -/
def jsShowOpt : Option Json → String
  | none => "undefined"
  | some j => jsShow j

/-- The expression error.message OR-ELSE the string Unknown error (an empty message is falsy). -/
def jsOrUnknown (msg : String) : String :=
  if msg = "" then "Unknown error" else msg

/-- JSON string escaping for `JSON.stringify` (the characters the
data of the program can contain). -/
def escapeChar (c : Char) : String :=
  if c = '"' then "\\\""
  else if c = '\\' then "\\\\"
  else if c = '\n' then "\\n"
  else if c = '\t' then "\\t"
  else if c = '\r' then "\\r"
  else String.singleton c

def escapeJson (s : String) : String :=
  String.join (s.data.map escapeChar)

def indentPad (d : Nat) : String :=
  String.join (List.replicate d "  ")

mutual
/-- `JSON.stringify(v, null, 2)` at nesting depth `d`. -/
def stringifyAux : Json → Nat → String
  | Json.null, _ => "null"
  | Json.bool true, _ => "true"
  | Json.bool false, _ => "false"
  | Json.num n, _ => toString n
  | Json.str s, _ => "\"" ++ escapeJson s ++ "\""
  | Json.arr [], _ => "[]"
  | Json.arr (x :: xs), d =>
      "[\n" ++ String.intercalate ",\n" (stringifyElems (x :: xs) (d + 1))
        ++ "\n" ++ indentPad d ++ "]"
  | Json.obj [], _ => "\x7b\x7d"
  | Json.obj (f :: fs), d =>
      "\x7b\n" ++ String.intercalate ",\n" (stringifyFields (f :: fs) (d + 1))
        ++ "\n" ++ indentPad d ++ "\x7d"

def stringifyElems : List Json → Nat → List String
  | [], _ => []
  | x :: xs, d => (indentPad d ++ stringifyAux x d) :: stringifyElems xs d

def stringifyFields : List (String × Json) → Nat → List String
  | [], _ => []
  | (k, v) :: fs, d =>
      (indentPad d ++ "\"" ++ escapeJson k ++ "\": " ++ stringifyAux v d)
        :: stringifyFields fs d
end

def jsonStringify (j : Json) : String := stringifyAux j 0

/-- `JSON.stringify` of a possibly-undefined value inside a template:
`JSON.stringify(undefined)` is `undefined`, printing as "undefined". -/
def stringifyOpt : Option Json → String
  | none => "undefined"
  | some j => jsonStringify j

/-! ### Substring test (for the "not found" / error-message claims) -/

def charsStartWith : List Char → List Char → Bool
  | [], _ => true
  | _ :: _, [] => false
  | a :: as, b :: bs => a == b && charsStartWith as bs

def charsContain : List Char → List Char → Bool
  | [], pat => charsStartWith pat []
  | c :: rest, pat => charsStartWith pat (c :: rest) || charsContain rest pat

/-- `s` contains `pat` as a contiguous substring. -/
def strContains (s pat : String) : Bool :=
  charsContain s.data pat.data

/-! ### Query-parameter construction (src/api/pinpoint.ts)

A JS object of string values built by successive conditional insertions is
modelled as an association list in insertion order.  `if (filters.x)`
keeps the parameter only when the value is present *and* truthy. -/

/-- `if (v) params[key] = v` for an optional string value. -/
def addStrParam (key : String) (v : Option String) : List (String × String) :=
  match v with
  | none => []
  | some s => if s = "" then [] else [(key, s)]

/-- `if (v) params[key] = v.toString()` for an optional number value. -/
def addNumParam (key : String) (v : Option Int) : List (String × String) :=
  match v with
  | none => []
  | some n => if n = 0 then [] else [(key, toString n)]

/-- The filter object accepted by `getJobs`. -/
structure JobFilters where
  search : Option String
  status : Option String
  employment_type : Option String
  workplace_type : Option String
  page : Option Int
  per_page : Option Int

/-- Query parameters built by `getJobs` (src/api/pinpoint.ts, lines 38-59). -/
def getJobsParams (f : JobFilters) : List (String × String) :=
  addStrParam "filter[search]" f.search ++
  addStrParam "filter[status]" f.status ++
  addStrParam "filter[employment_type]" f.employment_type ++
  addStrParam "filter[workplace_type]" f.workplace_type ++
  addNumParam "page[number]" f.page ++
  addNumParam "page[size]" f.per_page

/-- The filter object accepted by `getApplications`. -/
structure ApplicationFilters where
  job_id : Option String
  job_visibility : Option String
  stage_id : Option String
  page : Option Int
  per_page : Option Int

/-- Query parameters built by `getApplications` (src/api/pinpoint.ts,
lines 139-163).  Pagination uses the plain keys `page` / `per_page`
(`params.page = ...`), and two fixed parameters are appended
unconditionally at the end. -/
def getApplicationsParams (f : ApplicationFilters) : List (String × String) :=
  addStrParam "filter[job_id]" f.job_id ++
  addStrParam "filter[job_visibility]" f.job_visibility ++
  addStrParam "filter[stage_id]" f.stage_id ++
  addNumParam "page" f.page ++
  addNumParam "per_page" f.per_page ++
  [("extra_fields[applications]", "attachments"), ("stats[total]", "count")]

/-- Input of `createApplication`. -/
structure MinimalApplicationData where
  firstName : String
  lastName : String
  email : String
  jobId : String

/-- The JSON:API request body built by `createApplication`
(src/api/pinpoint.ts, lines 93-121). -/
def createApplicationBody (a : MinimalApplicationData) : Json :=
  Json.obj [("data", Json.obj [
    ("type", Json.str "applications"),
    ("attributes", Json.obj [
      ("first_name", Json.str a.firstName),
      ("last_name", Json.str a.lastName),
      ("email", Json.str a.email)]),
    ("relationships", Json.obj [
      ("job", Json.obj [
        ("data", Json.obj [
          ("type", Json.str "jobs"),
          ("id", Json.str a.jobId)])])])])]

/-- The body shape stated by the spec, written from the words of the spec:
data / type applications / attributes (first_name, last_name, email) /
relationships / job / data (type jobs, id jobId). -/
def specApplicationBody (firstName lastName email jobId : String) : Json :=
  Json.obj [("data", Json.obj [
    ("type", Json.str "applications"),
    ("attributes", Json.obj [
      ("first_name", Json.str firstName),
      ("last_name", Json.str lastName),
      ("email", Json.str email)]),
    ("relationships", Json.obj [
      ("job", Json.obj [
        ("data", Json.obj [
          ("type", Json.str "jobs"),
          ("id", Json.str jobId)])])])])]

/-! ### PDF extraction (src/utils, = src/unnamed/part_000) -/

/-- One invocation of the `parseBuffer` callback: a parser error
(`err` non-null), the terminal null item, or a parsed item with an
optional `text` property. -/
inductive PdfCallback where
  | fail (msg : String)
  | endOfFile
  | item (text : Option String)

def isItemCallback : PdfCallback → Bool
  | PdfCallback.item _ => true
  | _ => false

/-- Runs the callback over the stream with the current `textItems`
accumulator; returns the value the promise resolves with, `none` when
the stream ends without the promise ever settling.  A parser error
resolves with the sentinel string; the terminal null item resolves with
textItems joined by single spaces; an item is pushed only under the
`if (item.text)` guard, so a missing *or empty-string* text is skipped
(JS truthiness). -/
def collectText : List PdfCallback → List String → Option String
  | [], _ => none
  | PdfCallback.fail _ :: _, _ => some "Error extracting text from PDF"
  | PdfCallback.endOfFile :: _, acc => some (String.intercalate " " acc)
  | PdfCallback.item t :: rest, acc =>
      collectText rest
        (match t with
          | some s => if s = "" then acc else acc ++ [s]
          | none => acc)

/-- `extractTextFromPdf` on a callback stream: the resolved value. -/
def extractTextFromPdf (calls : List PdfCallback) : Option String :=
  collectText calls []

/-- The joining rule the words of the spec describe: "the accumulator to which
every text fragment plus one separating space was appended". -/
def claimedJoinTrailingSpace (fragments : List String) : String :=
  fragments.foldl (fun acc s => acc ++ s ++ " ") ""

/-- `parsePdfFromUrl`: download the URL (axios; rejection carries the
transport error message), then extract.  `download` maps a URL to the
rejection message or to the pdfreader callback stream of the downloaded
content.  Result: `none` when the promise never settles, otherwise the
settlement (`Except.error` = rejection). -/
def parsePdfFromUrl (download : String → Except String (List PdfCallback))
    (url : String) : Option (Except String String) :=
  match download url with
  | Except.error e => some (Except.error ("Failed to process PDF from URL: " ++ e))
  | Except.ok calls => (extractTextFromPdf calls).map Except.ok

/-! ### The world: the view the transport has of the upstream API

`axios` rejects on a non-2xx response; a GET for a missing resource is a
404 with the fixed error message "Request failed with status code 404".
Responses to collection endpoints are modelled as world fields (they do
not observably depend on the query in any claim). -/

structure World where
  /-- Existing jobs: id to the body `GET /jobs/:id` resolves with. -/
  jobs : List (String × Json)
  /-- Response of `GET /jobs` (error = the adapter call rejects). -/
  jobsIndexResp : Except String Json
  /-- Response of `GET /applications`. -/
  applicationsResp : Except String Json
  /-- Existing applications: id to the body `GET /applications/:id` resolves with. -/
  applicationsById : List (String × Json)
  /-- Response of `POST /applications`. -/
  postApplicationsResp : Except String Json
  /-- Downloading a URL: rejection message, or the pdfreader callback
  stream of the downloaded content. -/
  download : String → Except String (List PdfCallback)

/-- An HTTP request issued by the adapter. -/
inductive HttpReq where
  | get (path : String) (params : List (String × String))
  | post (path : String) (body : Json)

/-- `getJobById` (src/api/pinpoint.ts, lines 68-76): `GET /jobs/:id`;
its catch only logs and rethrows, so the result is that of the transport. -/
def getJobByIdResp (w : World) (id : String) : Except String Json :=
  match w.jobs.lookup id with
  | some body => Except.ok body
  | none => Except.error "Request failed with status code 404"

/-- `getApplicationById`: `GET /applications/:id`, same failure policy. -/
def getApplicationByIdResp (w : World) (id : String) : Except String Json :=
  match w.applicationsById.lookup id with
  | some body => Except.ok body
  | none => Except.error "Request failed with status code 404"

/-! ### Tool handlers (src/main.ts)

Each handler is a function of the world and the zod-validated arguments.
Its result carries the response and the list of HTTP requests issued, in
order.  A handler with no try/catch has result type
`Except String ToolResponse × _`: `Except.error` is the exception of
the adapter propagating out of the handler.  A handler wrapped in
try/catch is total. -/

/-- A text-content response envelope holding one text content block. -/
structure ToolResponse where
  text : String

/-- Arguments of `get-jobs` as received on the wire (before zod applies
the declared defaults). -/
structure GetJobsArgs where
  search : Option String
  status : Option String
  employment_type : Option String
  workplace_type : Option String
  page : Option Int
  per_page : Option Int

/-- The filter object the `get-jobs` handler passes to `getJobs`: the zod
`.default(1)` / `.default(20)` replace omitted `page` / `per_page`. -/
def toolJobFilters (a : GetJobsArgs) : JobFilters :=
  { search := a.search
    status := a.status
    employment_type := a.employment_type
    workplace_type := a.workplace_type
    page := some (a.page.getD 1)
    per_page := some (a.per_page.getD 20) }

/-- `get-jobs` handler (src/main.ts, lines 49-68): no try/catch — an
adapter rejection propagates. -/
def getJobsTool (w : World) (a : GetJobsArgs) :
    Except String ToolResponse × List HttpReq :=
  match w.jobsIndexResp with
  | Except.error e =>
      (Except.error e, [HttpReq.get "/jobs" (getJobsParams (toolJobFilters a))])
  | Except.ok jobs =>
      (Except.ok ⟨jsonStringify jobs⟩,
       [HttpReq.get "/jobs" (getJobsParams (toolJobFilters a))])

/-- `get-job` handler (src/main.ts, lines 77-89): no try/catch — an
adapter rejection propagates. -/
def getJobTool (w : World) (id : String) :
    Except String ToolResponse × List HttpReq :=
  match getJobByIdResp w id with
  | Except.error e => (Except.error e, [HttpReq.get ("/jobs/" ++ id) []])
  | Except.ok job =>
      (Except.ok ⟨jsonStringify job⟩, [HttpReq.get ("/jobs/" ++ id) []])

/-- `create-application` handler (src/main.ts, lines 101-143): inside
try/catch.  It first awaits `getJobById`; only when that *resolves* with
a falsy value does the explicit "not found" branch run; a rejection goes
to the catch.  Then it posts the application. -/
def createApplicationTool (w : World) (jobId firstName lastName email : String) :
    ToolResponse × List HttpReq :=
  match getJobByIdResp w jobId with
  | Except.error e =>
      (⟨"Error creating application: " ++ jsOrUnknown e⟩,
       [HttpReq.get ("/jobs/" ++ jobId) []])
  | Except.ok jobResponse =>
      if jsFalsy jobResponse then
        (⟨"Error: Job with ID " ++ jobId ++ " not found."⟩,
         [HttpReq.get ("/jobs/" ++ jobId) []])
      else
        match w.postApplicationsResp with
        | Except.error e =>
            (⟨"Error creating application: " ++ jsOrUnknown e⟩,
             [HttpReq.get ("/jobs/" ++ jobId) [],
              HttpReq.post "/applications"
                (createApplicationBody ⟨firstName, lastName, email, jobId⟩)])
        | Except.ok appJson =>
            (⟨"Application submitted successfully! Application ID: "
                ++ jsShowOpt (jsPath (some appJson) ["data", "id"])
                ++ "\n\nJob: "
                ++ jsShowOpt (jsPath (some jobResponse) ["data", "attributes", "title"])
                ++ "\nApplicant: " ++ firstName ++ " " ++ lastName
                ++ "\nEmail: " ++ email⟩,
             [HttpReq.get ("/jobs/" ++ jobId) [],
              HttpReq.post "/applications"
                (createApplicationBody ⟨firstName, lastName, email, jobId⟩)])

/-- `get-applications` handler (src/main.ts): inside try/catch. -/
def getApplicationsTool (w : World) (jobId jobVisibility stageId : Option String)
    (page perPage : Option Int) : ToolResponse × List HttpReq :=
  match w.applicationsResp with
  | Except.error e =>
      (⟨"Error fetching applications: " ++ jsOrUnknown e⟩,
       [HttpReq.get "/applications"
          (getApplicationsParams ⟨jobId, jobVisibility, stageId, page, perPage⟩)])
  | Except.ok resp =>
      (⟨"Found " ++ jsShowOpt (jsPath (some resp) ["meta", "stats", "total", "count"])
          ++ " applications:\n\n" ++ stringifyOpt (jsField resp "data")⟩,
       [HttpReq.get "/applications"
          (getApplicationsParams ⟨jobId, jobVisibility, stageId, page, perPage⟩)])

/-- `get-application-by-id` handler (src/main.ts): inside try/catch. -/
def getApplicationByIdTool (w : World) (id : String) :
    ToolResponse × List HttpReq :=
  match getApplicationByIdResp w id with
  | Except.error e =>
      (⟨"Error fetching application: " ++ jsOrUnknown e⟩,
       [HttpReq.get ("/applications/" ++ id) []])
  | Except.ok resp =>
      (⟨stringifyOpt (jsField resp "data")⟩,
       [HttpReq.get ("/applications/" ++ id) []])

/-- `parse-cv-from-url` handler (src/main.ts): inside try/catch; `none`
when the extraction promise never settles (so neither does the tool). -/
def parseCvTool (w : World) (url : String) : Option ToolResponse :=
  match parsePdfFromUrl w.download url with
  | none => none
  | some (Except.ok text) => some ⟨text⟩
  | some (Except.error e) => some ⟨"Error parsing CV from URL: " ++ jsOrUnknown e⟩

/-! ### Helper lemmas -/

theorem mem_addStrParam {key k v : String} {o : Option String} :
    (k, v) ∈ addStrParam key o ↔ k = key ∧ o = some v ∧ v ≠ "" := by
  cases o with
  | none => simp [addStrParam]
  | some s => by_cases h : s = "" <;> simp [addStrParam, h, Prod.ext_iff] <;> aesop

theorem mem_addNumParam {key k v : String} {o : Option Int} :
    (k, v) ∈ addNumParam key o ↔
      k = key ∧ ∃ n, o = some n ∧ n ≠ 0 ∧ v = toString n := by
  cases o with
  | none => simp [addNumParam]
  | some n => by_cases h : n = 0 <;> simp [addNumParam, h, Prod.ext_iff]

theorem charsStartWith_self (l : List Char) : charsStartWith l l = true := by
  induction l with
  | nil => rfl
  | cons c cs ih => simp [charsStartWith, ih]

theorem charsContain_append_self (s pat : List Char) :
    charsContain (s ++ pat) pat = true := by
  induction s with
  | nil =>
      cases pat with
      | nil => rfl
      | cons c cs => simp [charsContain, charsStartWith_self]
  | cons c cs ih => simp [charsContain, ih]

theorem strContains_append_self (s e : String) :
    strContains (s ++ e) e = true := by
  simp [strContains, String.data_append, charsContain_append_self]

theorem append_ne_empty_of_data_ne_nil (s e : String) (h : s.data ≠ []) :
    s ++ e ≠ "" := by
  intro hc
  have h2 : s.data ++ e.data = [] := by
    have := congrArg String.data hc
    simpa [String.data_append] using this
  exact h (List.append_eq_nil.mp h2).1

theorem jsOrUnknown_of_ne {m : String} (h : m ≠ "") : jsOrUnknown m = m := by
  simp [jsOrUnknown, h]

theorem collectText_fail (pre : List PdfCallback) (m : String)
    (post : List PdfCallback) (acc : List String)
    (h : ∀ c ∈ pre, isItemCallback c = true) :
    collectText (pre ++ PdfCallback.fail m :: post) acc =
      some "Error extracting text from PDF" := by
  induction pre generalizing acc with
  | nil => rfl
  | cons c rest ih =>
      cases c with
      | fail m2 => rfl
      | endOfFile =>
          exact absurd (h PdfCallback.endOfFile (by simp)) (by simp [isItemCallback])
      | item t =>
          have hr : ∀ c ∈ rest, isItemCallback c = true := by
            intro c hc
            exact h c (by simp [hc])
          cases t with
          | none => simpa [collectText] using ih _ hr
          | some s => simpa [collectText] using ih _ hr

theorem collectText_items (items : List (Option String)) (acc : List String) :
    collectText (items.map PdfCallback.item ++ [PdfCallback.endOfFile]) acc =
      some (String.intercalate " "
        (acc ++ (items.filterMap id).filter (fun s => s != ""))) := by
  induction items generalizing acc with
  | nil => simp [collectText]
  | cons t rest ih =>
      cases t with
      | none => simpa [collectText] using ih acc
      | some s =>
          by_cases hs : s = ""
          · simpa [collectText, hs] using ih acc
          · have := ih (acc ++ [s])
            simpa [collectText, hs, List.append_assoc] using this

/-! ### Sample worlds for concrete instantiations -/

/-- A world with no resources and all collection calls succeeding. -/
def sampleWorldEmpty : World :=
  ⟨[], Except.ok Json.null, Except.ok Json.null, [], Except.ok Json.null,
   fun _ => Except.ok []⟩

/-- A world where every transport call rejects with message "boom". -/
def sampleWorldErrors : World :=
  ⟨[], Except.error "boom", Except.error "boom", [], Except.error "boom",
   fun _ => Except.error "boom"⟩

/-- A world with one job "42" whose creation POST rejects with "boom". -/
def sampleWorldJob : World :=
  ⟨[("42", Json.obj [("data", Json.obj [("id", Json.str "42")])])],
   Except.ok Json.null, Except.ok Json.null, [], Except.error "boom",
   fun _ => Except.ok []⟩

/-! ### Claims -/

/-- Claim C1: the claim states that invoking `create-application` with a
non-existent `jobId` yields a response containing "not found" and never
issues the creation POST.  The code intends this (the handler has an
explicit branch producing "Error: Job with ID ... not found."), but that
branch is dead for a missing job: `getJobById` *rejects* with the axios
404 error, the rejection lands in the catch, and the returned text is
"Error creating application: Request failed with status code 404", which
does not contain "not found".  The POST is indeed never issued (the only
request in the trace is the GET).  This theorem evaluates the handler on
the failing input. -/
theorem createApplication_missing_job_behavior
    (w : World) (jobId firstName lastName email : String)
    (h : w.jobs.lookup jobId = none) :
    createApplicationTool w jobId firstName lastName email =
      (⟨"Error creating application: Request failed with status code 404"⟩,
       [HttpReq.get ("/jobs/" ++ jobId) []]) ∧
    strContains "Error creating application: Request failed with status code 404"
      "not found" = false := by
  constructor
  · simp [createApplicationTool, getJobByIdResp, h]
    rfl
  · rfl

/-- Witness for C1: a concrete empty world and job id "42". -/
theorem createApplication_missing_job_behavior_witness :
    (sampleWorldEmpty.jobs.lookup "42" = none) ∧
    (createApplicationTool sampleWorldEmpty "42" "Ada" "Lovelace" "ada@example.com" =
      (⟨"Error creating application: Request failed with status code 404"⟩,
       [HttpReq.get ("/jobs/" ++ "42") []]) ∧
    strContains "Error creating application: Request failed with status code 404"
      "not found" = false) :=
  ⟨rfl, createApplication_missing_job_behavior sampleWorldEmpty "42" "Ada" "Lovelace"
    "ada@example.com" rfl⟩

/-- Claim C2, counterexample: the `get-jobs` and `get-job` handlers have
no try/catch, so when the adapter call rejects the exception propagates
out of the handler instead of being converted into a text-content
envelope.  Concretely: with `GET /jobs` rejecting with "boom", the
`get-jobs` handler result is the propagated error, and with job "7"
missing, the `get-job` handler result is the propagated 404 error. -/
theorem getJobsTool_uncaught_counterexample :
    (getJobsTool sampleWorldErrors ⟨none, none, none, none, none, none⟩).1 =
      Except.error "boom" ∧
    (getJobTool sampleWorldErrors "7").1 =
      Except.error "Request failed with status code 404" :=
  ⟨rfl, rfl⟩

/-- Claim C2 (amended): every tool *except* `get-jobs` and `get-job`
catches adapter exceptions and returns a normal text-content envelope
describing the failure; `get-jobs` and `get-job` let the adapter
exception propagate unformatted out of the handler. -/
theorem tool_error_propagation_policy :
    (∀ (w : World) (a : GetJobsArgs) (e : String),
        w.jobsIndexResp = Except.error e →
        (getJobsTool w a).1 = Except.error e) ∧
    (∀ (w : World) (id : String), w.jobs.lookup id = none →
        (getJobTool w id).1 = Except.error "Request failed with status code 404") ∧
    (∀ (w : World) (jobId firstName lastName email : String),
        w.jobs.lookup jobId = none →
        (createApplicationTool w jobId firstName lastName email).1.text =
          "Error creating application: Request failed with status code 404") ∧
    (∀ (w : World) (jobId firstName lastName email e : String) (j : Json),
        w.jobs.lookup jobId = some j → jsFalsy j = false →
        w.postApplicationsResp = Except.error e →
        (createApplicationTool w jobId firstName lastName email).1.text =
          "Error creating application: " ++ jsOrUnknown e) ∧
    (∀ (w : World) (jobId jobVisibility stageId : Option String)
        (page perPage : Option Int) (e : String),
        w.applicationsResp = Except.error e →
        (getApplicationsTool w jobId jobVisibility stageId page perPage).1.text =
          "Error fetching applications: " ++ jsOrUnknown e) ∧
    (∀ (w : World) (id : String), w.applicationsById.lookup id = none →
        (getApplicationByIdTool w id).1.text =
          "Error fetching application: Request failed with status code 404") ∧
    (∀ (w : World) (url e : String), w.download url = Except.error e →
        parseCvTool w url =
          some ⟨"Error parsing CV from URL: " ++ ("Failed to process PDF from URL: " ++ e)⟩) := by
  refine ⟨?_, ?_, ?_, ?_, ?_, ?_, ?_⟩
  · intro w a e h
    simp [getJobsTool, h]
  · intro w id h
    simp [getJobTool, getJobByIdResp, h]
  · intro w jobId firstName lastName email h
    simp [createApplicationTool, getJobByIdResp, h]
    rfl
  · intro w jobId firstName lastName email e j hj hfalsy hpost
    simp [createApplicationTool, getJobByIdResp, hj, hfalsy, hpost]
  · intro w jobId jobVisibility stageId page perPage e h
    simp [getApplicationsTool, h]
  · intro w id h
    simp [getApplicationByIdTool, getApplicationByIdResp, h]
    rfl
  · intro w url e h
    have hne : ("Failed to process PDF from URL: " ++ e) ≠ "" :=
      append_ne_empty_of_data_ne_nil _ _ (by decide)
    simp [parseCvTool, parsePdfFromUrl, h, jsOrUnknown_of_ne hne]

/-- Witness for C2 (amended): each conjunct at a concrete world. -/
theorem tool_error_propagation_policy_witness :
    (getJobsTool sampleWorldErrors ⟨none, none, none, none, none, none⟩).1 =
      Except.error "boom" ∧
    (getJobTool sampleWorldErrors "9").1 =
      Except.error "Request failed with status code 404" ∧
    (createApplicationTool sampleWorldErrors "9" "Ada" "Lovelace" "a@b.c").1.text =
      "Error creating application: Request failed with status code 404" ∧
    (createApplicationTool sampleWorldJob "42" "Ada" "Lovelace" "a@b.c").1.text =
      "Error creating application: " ++ jsOrUnknown "boom" ∧
    (getApplicationsTool sampleWorldErrors none none none none none).1.text =
      "Error fetching applications: " ++ jsOrUnknown "boom" ∧
    (getApplicationByIdTool sampleWorldErrors "9").1.text =
      "Error fetching application: Request failed with status code 404" ∧
    parseCvTool sampleWorldErrors "http://x" =
      some ⟨"Error parsing CV from URL: " ++ ("Failed to process PDF from URL: " ++ "boom")⟩ :=
  ⟨tool_error_propagation_policy.1 sampleWorldErrors ⟨none, none, none, none, none, none⟩
      "boom" rfl,
   tool_error_propagation_policy.2.1 sampleWorldErrors "9" rfl,
   tool_error_propagation_policy.2.2.1 sampleWorldErrors "9" "Ada" "Lovelace" "a@b.c" rfl,
   tool_error_propagation_policy.2.2.2.1 sampleWorldJob "42" "Ada" "Lovelace" "a@b.c"
      "boom" (Json.obj [("data", Json.obj [("id", Json.str "42")])]) rfl rfl rfl,
   tool_error_propagation_policy.2.2.2.2.1 sampleWorldErrors none none none none none
      "boom" rfl,
   tool_error_propagation_policy.2.2.2.2.2.1 sampleWorldErrors "9" rfl,
   tool_error_propagation_policy.2.2.2.2.2.2 sampleWorldErrors "http://x" "boom" rfl⟩

/-- Claim C3, counterexample: the claim states that `getApplications`
serializes pagination fields as `page[number]` / `page[size]`, but the
code assigns them to the plain keys `page` / `per_page`.  With the
filter `page = 2` the parameter map holds the key "page", not
"page[number]". -/
theorem getApplications_page_key_counterexample :
    (getApplicationsParams ⟨none, none, none, some 2, none⟩).lookup "page[number]"
      = none ∧
    (getApplicationsParams ⟨none, none, none, some 2, none⟩).lookup "page"
      = some "2" :=
  ⟨rfl, rfl⟩

/-- Claim C3 (amended): in `getApplications`, each present field whose
value is truthy (non-empty string, non-zero number) is translated 1:1
into a query-string pair — filter fields under `filter[<name>]`,
pagination fields under the plain keys `page` and `per_page` — and the
two fixed pairs are always added; nothing else appears. -/
theorem getApplications_params_characterization :
    ∀ (f : ApplicationFilters) (k v : String),
      (k, v) ∈ getApplicationsParams f ↔
        (k = "filter[job_id]" ∧ f.job_id = some v ∧ v ≠ "") ∨
        (k = "filter[job_visibility]" ∧ f.job_visibility = some v ∧ v ≠ "") ∨
        (k = "filter[stage_id]" ∧ f.stage_id = some v ∧ v ≠ "") ∨
        (k = "page" ∧ ∃ n, f.page = some n ∧ n ≠ 0 ∧ v = toString n) ∨
        (k = "per_page" ∧ ∃ n, f.per_page = some n ∧ n ≠ 0 ∧ v = toString n) ∨
        (k = "extra_fields[applications]" ∧ v = "attachments") ∨
        (k = "stats[total]" ∧ v = "count") := by
  intro f k v
  simp [getApplicationsParams, mem_addStrParam, mem_addNumParam, Prod.ext_iff]

/-- Claim C4, counterexample: a filter object whose `search` field is
present but holds the empty string produces *no* `filter[search]`
parameter (the parameter map is empty), contradicting "contains exactly
the bracket-syntax keys for the present fields". -/
theorem getJobs_empty_search_counterexample :
    (JobFilters.search ⟨some "", none, none, none, none, none⟩).isSome = true ∧
    getJobsParams ⟨some "", none, none, none, none, none⟩ = [] :=
  ⟨rfl, rfl⟩

/-- Claim C4 (amended): the `getJobs` query-parameter map contains
exactly the bracket-syntax keys for the fields that are present *with a
truthy value* (non-empty string, non-zero number), and no key for any
other field. -/
theorem getJobs_params_characterization :
    ∀ (f : JobFilters) (k v : String),
      (k, v) ∈ getJobsParams f ↔
        (k = "filter[search]" ∧ f.search = some v ∧ v ≠ "") ∨
        (k = "filter[status]" ∧ f.status = some v ∧ v ≠ "") ∨
        (k = "filter[employment_type]" ∧ f.employment_type = some v ∧ v ≠ "") ∨
        (k = "filter[workplace_type]" ∧ f.workplace_type = some v ∧ v ≠ "") ∨
        (k = "page[number]" ∧ ∃ n, f.page = some n ∧ n ≠ 0 ∧ v = toString n) ∨
        (k = "page[size]" ∧ ∃ n, f.per_page = some n ∧ n ≠ 0 ∧ v = toString n) := by
  intro f k v
  simp [getJobsParams, mem_addStrParam, mem_addNumParam]

/-- Claim C5: `createApplication` given the Ada Lovelace input produces
exactly the JSON:API body stated by the spec, and for every input the
body is that shape with the four input fields substituted
(`specApplicationBody` is written from the words of the spec). -/
theorem createApplication_body_shape :
    createApplicationBody ⟨"Ada", "Lovelace", "ada@example.com", "42"⟩ =
      Json.obj [("data", Json.obj [
        ("type", Json.str "applications"),
        ("attributes", Json.obj [
          ("first_name", Json.str "Ada"),
          ("last_name", Json.str "Lovelace"),
          ("email", Json.str "ada@example.com")]),
        ("relationships", Json.obj [
          ("job", Json.obj [
            ("data", Json.obj [
              ("type", Json.str "jobs"),
              ("id", Json.str "42")])])])])] ∧
    ∀ a : MinimalApplicationData,
      createApplicationBody a =
        specApplicationBody a.firstName a.lastName a.email a.jobId :=
  ⟨rfl, fun _ => rfl⟩

/-- Claim C6: `parsePdfFromUrl` rejects on a failed download with a
message embedding (containing) the original failure message, and when
the downloaded content makes the parser report an error it *resolves*
with exactly "Error extracting text from PDF". -/
theorem parsePdf_error_policy :
    (∀ (download : String → Except String (List PdfCallback)) (url e : String),
        download url = Except.error e →
        parsePdfFromUrl download url =
          some (Except.error ("Failed to process PDF from URL: " ++ e)) ∧
        strContains ("Failed to process PDF from URL: " ++ e) e = true) ∧
    (∀ (download : String → Except String (List PdfCallback)) (url m : String)
        (pre post : List PdfCallback),
        download url = Except.ok (pre ++ PdfCallback.fail m :: post) →
        (∀ c ∈ pre, isItemCallback c = true) →
        parsePdfFromUrl download url =
          some (Except.ok "Error extracting text from PDF")) := by
  constructor
  · intro download url e h
    exact ⟨by simp [parsePdfFromUrl, h], strContains_append_self _ e⟩
  · intro download url m pre post h hpre
    simp [parsePdfFromUrl, h, extractTextFromPdf, collectText_fail pre m post [] hpre]

/-- Witness for C6: a download that rejects with "boom404", and one
whose content makes the first parser callback report an error. -/
theorem parsePdf_error_policy_witness :
    (parsePdfFromUrl (fun _ => Except.error "boom404") "http://x" =
      some (Except.error ("Failed to process PDF from URL: " ++ "boom404")) ∧
     strContains ("Failed to process PDF from URL: " ++ "boom404") "boom404" = true) ∧
    parsePdfFromUrl (fun _ => Except.ok ([] ++ PdfCallback.fail "bad xref" :: []))
      "http://x" = some (Except.ok "Error extracting text from PDF") :=
  ⟨parsePdf_error_policy.1 (fun _ => Except.error "boom404") "http://x" "boom404" rfl,
   parsePdf_error_policy.2 (fun _ => Except.ok ([] ++ PdfCallback.fail "bad xref" :: []))
     "http://x" "bad xref" [] [] rfl (by intro c hc; cases hc)⟩

/-- Claim C7: every `getApplications` parameter map — whatever the
filter object — includes the two fixed pairs
`extra_fields[applications]=attachments` and `stats[total]=count`. -/
theorem getApplications_fixed_params :
    ∀ f : ApplicationFilters,
      ("extra_fields[applications]", "attachments") ∈ getApplicationsParams f ∧
      ("stats[total]", "count") ∈ getApplicationsParams f := by
  intro f
  constructor <;> simp [getApplicationsParams]

/-- Claim C8, counterexample: the claim says every text fragment is
followed by one separating space (the accumulator appends each fragment
plus a space, `claimedJoinTrailingSpace`), which on the single fragment
"a" would give "a "; the code joins with a *separator* and resolves with
"a". -/
theorem extractText_trailing_space_counterexample :
    extractTextFromPdf [PdfCallback.item (some "a"), PdfCallback.endOfFile] =
      some "a" ∧
    claimedJoinTrailingSpace ["a"] = "a " ∧
    ("a" : String) ≠ "a " :=
  ⟨rfl, rfl, by decide⟩

/-- Claim C8 (amended): for every callback stream of items ending in the
terminal null item, `extractTextFromPdf` resolves with the fragments
carrying *truthy* text (present and non-empty: the `if (item.text)`
guard) in callback order, joined by a single space *between* consecutive
fragments (no trailing space). -/
theorem extractText_joins_with_single_spaces :
    ∀ items : List (Option String),
      extractTextFromPdf (items.map PdfCallback.item ++ [PdfCallback.endOfFile]) =
        some (String.intercalate " "
          ((items.filterMap id).filter (fun s => s != ""))) := by
  intro items
  simpa using collectText_items items []

/-- Claim C9: when `get-jobs` is invoked without `page` / `per_page`,
the filter passed to the adapter defaults to page 1 and per_page 20, and
the issued request's query parameters contain `page[number]=1` and
`page[size]=20`. -/
theorem getJobs_default_pagination :
    ∀ (w : World) (a : GetJobsArgs), a.page = none → a.per_page = none →
      (toolJobFilters a).page = some 1 ∧
      (toolJobFilters a).per_page = some 20 ∧
      (getJobsTool w a).2 = [HttpReq.get "/jobs" (getJobsParams (toolJobFilters a))] ∧
      ("page[number]", "1") ∈ getJobsParams (toolJobFilters a) ∧
      ("page[size]", "20") ∈ getJobsParams (toolJobFilters a) := by
  intro w a hp hpp
  have h1 : (toString (1 : Int)) = "1" := rfl
  have h20 : (toString (20 : Int)) = "20" := rfl
  refine ⟨by simp [toolJobFilters, hp], by simp [toolJobFilters, hpp], ?_, ?_, ?_⟩
  · cases hidx : w.jobsIndexResp <;> simp [getJobsTool, hidx]
  · simp [getJobsParams, List.mem_append, mem_addStrParam, mem_addNumParam,
      toolJobFilters, hp, h1]
  · simp [getJobsParams, List.mem_append, mem_addStrParam, mem_addNumParam,
      toolJobFilters, hpp, h20]

/-- Witness for C9: a concrete invocation omitting both pagination
arguments. -/
theorem getJobs_default_pagination_witness :
    ((⟨none, none, none, none, none, none⟩ : GetJobsArgs).page = none) ∧
    ((⟨none, none, none, none, none, none⟩ : GetJobsArgs).per_page = none) ∧
    ((toolJobFilters ⟨none, none, none, none, none, none⟩).page = some 1 ∧
     (toolJobFilters ⟨none, none, none, none, none, none⟩).per_page = some 20 ∧
     (getJobsTool sampleWorldEmpty ⟨none, none, none, none, none, none⟩).2 =
       [HttpReq.get "/jobs" (getJobsParams (toolJobFilters ⟨none, none, none, none, none, none⟩))] ∧
     ("page[number]", "1") ∈ getJobsParams (toolJobFilters ⟨none, none, none, none, none, none⟩) ∧
     ("page[size]", "20") ∈ getJobsParams (toolJobFilters ⟨none, none, none, none, none, none⟩)) :=
  ⟨rfl, rfl,
   getJobs_default_pagination sampleWorldEmpty ⟨none, none, none, none, none, none⟩ rfl rfl⟩

/-- Claim C10: a filter field that is present but falsy (empty string,
or 0 for the numeric pagination fields) produces no query parameter at
all — the result equals the one for the absent field, in both `getJobs`
and `getApplications`. -/
theorem falsy_filter_values_omitted :
    ∀ (f : JobFilters) (g : ApplicationFilters),
      getJobsParams { f with search := some "" } =
        getJobsParams { f with search := none } ∧
      getJobsParams { f with status := some "" } =
        getJobsParams { f with status := none } ∧
      getJobsParams { f with employment_type := some "" } =
        getJobsParams { f with employment_type := none } ∧
      getJobsParams { f with workplace_type := some "" } =
        getJobsParams { f with workplace_type := none } ∧
      getJobsParams { f with page := some 0 } =
        getJobsParams { f with page := none } ∧
      getJobsParams { f with per_page := some 0 } =
        getJobsParams { f with per_page := none } ∧
      getApplicationsParams { g with job_id := some "" } =
        getApplicationsParams { g with job_id := none } ∧
      getApplicationsParams { g with job_visibility := some "" } =
        getApplicationsParams { g with job_visibility := none } ∧
      getApplicationsParams { g with stage_id := some "" } =
        getApplicationsParams { g with stage_id := none } ∧
      getApplicationsParams { g with page := some 0 } =
        getApplicationsParams { g with page := none } ∧
      getApplicationsParams { g with per_page := some 0 } =
        getApplicationsParams { g with per_page := none } := by
  intro f g
  refine ⟨?_, ?_, ?_, ?_, ?_, ?_, ?_, ?_, ?_, ?_, ?_⟩ <;>
    simp [getJobsParams, getApplicationsParams, addStrParam, addNumParam]
